import Mathlib

/-
Shallow embedding of the okx-hft-collector core (src/src/okx_hft), covering:
  - the trade record parser (`handlers/trades.py`),
  - the in-memory L2 order book (`handlers/orderbook_l2.py`),
  - the per-channel batch-flush logic (`handlers/trades.py`,
    `handlers/orderbook.py`, `handlers/funding_rate.py`, `handlers/mark_price.py`,
    `handlers/tickers.py`, `handlers/open_interest.py`),
  - the websocket session loop and backoff (`ws/client.py`) and the supervisor
    shutdown drain (`run.py`).
Prices and sizes are modelled as rationals; the venue's decimal strings parse to
the same rational exactly when Python's float() accepts them, and two distinct
decimal strings denoting the same number (which Python would keep as distinct
dict keys) are identified.  Randomness (random.uniform) is modelled by an
explicit sample parameter, wall-clock reads by an explicit `now` parameter, and
a writer call's outcome by an explicit `WriteOutcome` parameter.
-/

namespace OkxHft

/-- Model of a Python/JSON scalar value as it reaches the handlers: a number,
a string, or null (None). -/
inductive PyVal where
  | vnum (q : ℚ)
  | vstr (s : String)
  | vnull
deriving DecidableEq

/-- Numeric value of a list of decimal digit characters, most significant first
(empty list denotes 0, matching the use sites below). -/
def digitsToNat (cs : List Char) : ℕ :=
  cs.foldl (fun acc c => acc * 10 + (c.toNat - 48)) 0

/-- Leading- and trailing-whitespace strip, as Python's numeric constructors
perform before parsing. -/
def stripChars (cs : List Char) : List Char :=
  ((cs.dropWhile Char.isWhitespace).reverse.dropWhile Char.isWhitespace).reverse

/-- Python float() applied to a string: strips whitespace, accepts an optional
sign and digits with at most one decimal point ("5", "5.", ".5", "-0.25", ...).
Returns none where float() raises ValueError.  The exponent/inf/nan forms are
outside the modelled subset (the venue sends plain decimals). -/
def pyFloatOfString (s : String) : Option ℚ :=
  let cs := stripChars s.toList
  let sgn : ℚ := match cs with
    | '-' :: _ => -1
    | _ => 1
  let body : List Char := match cs with
    | '-' :: t => t
    | '+' :: t => t
    | t => t
  let intPart := body.takeWhile Char.isDigit
  let rest := body.dropWhile Char.isDigit
  match rest with
  | [] =>
    if intPart.isEmpty then none
    else some (sgn * (digitsToNat intPart : ℚ))
  | '.' :: frac =>
    if intPart.isEmpty && frac.isEmpty then none
    else if frac.all Char.isDigit then
      some (sgn * ((digitsToNat intPart : ℚ)
        + (digitsToNat frac : ℚ) / (10 : ℚ) ^ frac.length))
    else none
  | _ => none

/-- Python int() applied to a string: strips whitespace, optional sign, digits
only; none where int() raises ValueError. -/
def pyIntOfString (s : String) : Option ℤ :=
  let cs := stripChars s.toList
  let sgn : ℤ := match cs with
    | '-' :: _ => -1
    | _ => 1
  let body : List Char := match cs with
    | '-' :: t => t
    | '+' :: t => t
    | t => t
  if body.isEmpty then none
  else if body.all Char.isDigit then some (sgn * (digitsToNat body : ℤ))
  else none

/-- Truncation toward zero, the behaviour of Python int() on a float. -/
def truncToward0 (q : ℚ) : ℤ := if 0 ≤ q then ⌊q⌋ else ⌈q⌉

/-- Python float(v): numbers pass through, strings are parsed, None raises
TypeError (none). -/
def pyFloat : PyVal → Option ℚ
  | .vnum q => some q
  | .vstr s => pyFloatOfString s
  | .vnull => none

/-- Python int(v): floats truncate toward zero, strings are parsed as base-10
integers, None raises TypeError (none). -/
def pyInt : PyVal → Option ℤ
  | .vnum q => some (truncToward0 q)
  | .vstr s => pyIntOfString s
  | .vnull => none

/-- One element of a frame's data array on the trades channel, as a JSON object
with each schema field either absent (none) or some scalar. -/
structure RawTrade where
  instId : Option PyVal
  ts : Option PyVal
  tradeId : Option PyVal
  px : Option PyVal
  sz : Option PyVal
  side : Option PyVal
deriving DecidableEq

/-- Normalized trade record produced by `TradesHandler._process_trade`
(handlers/trades.py lines 35-49). -/
structure TradeRecord where
  instId : PyVal
  ts_event_ms : ℤ
  tradeId : PyVal
  px : ℚ
  sz : ℚ
  side : PyVal
  ts_ingest_ms : ℤ
deriving DecidableEq

/-- Translation of `TradesHandler._process_trade` (handlers/trades.py lines
35-49): each field is read with a default (`trade.get(k, default)`), numeric
fields go through float()/int(); a ValueError or TypeError anywhere makes the
whole record none (the except branch returns None).  `now` is the wall clock
read `int(time.time() * 1000)`. -/
def processTrade (now : ℤ) (t : RawTrade) : Option TradeRecord := do
  let tsv ← pyInt (t.ts.getD (PyVal.vnum 0))
  let pxv ← pyFloat (t.px.getD (PyVal.vnum 0))
  let szv ← pyFloat (t.sz.getD (PyVal.vnum 0))
  pure
    { instId := t.instId.getD (PyVal.vstr "")
      ts_event_ms := tsv
      tradeId := t.tradeId.getD (PyVal.vstr "")
      px := pxv
      sz := szv
      side := t.side.getD (PyVal.vstr "")
      ts_ingest_ms := now }

/-- Batch growth performed by the loop in `TradesHandler.on_trade`
(handlers/trades.py lines 23-26): each data element that `_process_trade`
accepts is appended to the batch; rejected elements are dropped. -/
def onTradeBatch (now : ℤ) (batch : List TradeRecord) (data : List RawTrade) :
    List TradeRecord :=
  data.foldl
    (fun b t =>
      match processTrade now t with
      | some r => b ++ [r]
      | none => b)
    batch

/-- In-memory L2 order book state, one per instrument
(handlers/orderbook_l2.py lines 12-29).  Price-to-size maps are association
lists kept sorted by the mutators (bids descending, asks ascending); `valid`
is the `_is_valid` flag. -/
structure OrderBookL2 where
  inst_id : String
  max_depth : ℕ
  bids : List (ℚ × ℚ)
  asks : List (ℚ × ℚ)
  last_ts_event_ms : ℤ
  last_checksum : ℤ
  seq_id : Option ℤ
  prev_seq_id : Option ℤ
  valid : Bool
deriving DecidableEq

/-- One delta frame of the books channel as seen by `apply_updates`: sequence
fields may be absent; each level of `bids`/`asks` is some (price, size) when
the pair parses, none when the level is malformed and is skipped by the
per-level try/except. -/
structure UpdateFrame where
  seqId : Option ℤ
  prevSeqId : Option ℤ
  checksum : ℤ
  ts : ℤ
  bids : List (Option (ℚ × ℚ))
  asks : List (Option (ℚ × ℚ))
deriving DecidableEq

/-- Assignment `self.bids[price_str] = size_str` on a Python dict: replace the
value of an existing key in place, otherwise append. -/
def upsertLevel (p s : ℚ) (side : List (ℚ × ℚ)) : List (ℚ × ℚ) :=
  if side.any (fun l => l.1 = p) then
    side.map (fun l => if l.1 = p then (p, s) else l)
  else side ++ [(p, s)]

/-- Removal `self.bids.pop(price_str, None)`: drop the key if present. -/
def eraseLevel (p : ℚ) (side : List (ℚ × ℚ)) : List (ℚ × ℚ) :=
  side.filter (fun l => ¬ l.1 = p)

/-- One iteration of the update loops in `apply_updates` (handlers/
orderbook_l2.py lines 127-158): malformed levels are skipped; size > 0 upserts
the level; size ≤ 0 erases it. -/
def applyLevelUpdate (side : List (ℚ × ℚ)) (lvl : Option (ℚ × ℚ)) :
    List (ℚ × ℚ) :=
  match lvl with
  | none => side
  | some (p, s) => if 0 < s then upsertLevel p s side else eraseLevel p side

/-- Sort of the bids map, descending by price (lines 161-163). -/
def sortBidsDesc (l : List (ℚ × ℚ)) : List (ℚ × ℚ) :=
  l.insertionSort (fun x y => y.1 ≤ x.1)

/-- Sort of the asks map, ascending by price (lines 164-166). -/
def sortAsksAsc (l : List (ℚ × ℚ)) : List (ℚ × ℚ) :=
  l.insertionSort (fun x y => x.1 ≤ y.1)

/-- Translation of `OrderBookL2.apply_updates` (handlers/orderbook_l2.py lines
103-181).  Returns the mutated book and the (success, checksum_ok) pair.  The
sequence check sets checksum_ok to false when both the book's seq_id and the
frame's prevSeqId are present and differ, and the level mutations are applied
unconditionally afterwards.  The except-branch `return False, False` fires
only on a Python-level exception while reading the frame, which the typed
frame cannot produce, so the success flag is always true here. -/
def apply_updates (b : OrderBookL2) (u : UpdateFrame) :
    OrderBookL2 × Bool × Bool :=
  let checksum_ok : Bool :=
    match b.seq_id, u.prevSeqId with
    | some s, some p => if p = s then true else false
    | _, _ => true
  let newBids := sortBidsDesc (u.bids.foldl applyLevelUpdate b.bids)
  let newAsks := sortAsksAsc (u.asks.foldl applyLevelUpdate b.asks)
  ({ b with
      bids := newBids
      asks := newAsks
      last_ts_event_ms := u.ts
      last_checksum := u.checksum
      seq_id := match u.seqId with
        | some q => some q
        | none => b.seq_id
      prev_seq_id := match u.prevSeqId with
        | some p => some p
        | none => b.prev_seq_id },
    true, checksum_ok)

/-- One normalized snapshot row for the store, as built by
`OrderBookL2.to_snapshot_rows` (handlers/orderbook_l2.py lines 183-245);
side 1 = bid, side 2 = ask, level is 1-based. -/
structure SnapshotRow where
  snapshot_id : String
  instId : String
  ts_event_ms : ℤ
  side : ℕ
  price : ℚ
  size : ℚ
  level : ℕ
deriving DecidableEq

/-- The row-emitting loop `for idx, (price, size) in enumerate(...)` of
`to_snapshot_rows`, with the running index carried explicitly; each level
yields one row with level = idx + 1. -/
def rowsFrom (sid inst : String) (ts : ℤ) (tag : ℕ) :
    ℕ → List (ℚ × ℚ) → List SnapshotRow
  | _, [] => []
  | idx, l :: rest =>
    { snapshot_id := sid
      instId := inst
      ts_event_ms := ts
      side := tag
      price := l.1
      size := l.2
      level := idx + 1 } :: rowsFrom sid inst ts tag (idx + 1) rest

/-- Translation of `OrderBookL2.to_snapshot_rows` (handlers/orderbook_l2.py
lines 183-245): empty when the book is not valid; otherwise the top `limit`
bid levels (side 1) followed by the top `limit` ask levels (side 2), where
`limit = max_levels or self.max_depth` (Python `or`: None and 0 both fall back
to max_depth). -/
def to_snapshot_rows (b : OrderBookL2) (sid : String) (ts : ℤ)
    (max_levels : Option ℕ) : List SnapshotRow :=
  if b.valid then
    let limit : ℕ :=
      match max_levels with
      | none => b.max_depth
      | some k => if k = 0 then b.max_depth else k
    rowsFrom sid b.inst_id ts 1 0 (b.bids.take limit)
      ++ rowsFrom sid b.inst_id ts 2 0 (b.asks.take limit)
  else []

/-- Outcome of one writer append call: success, an exception whose text marks
the ClickHouse "error 0" pseudo-success that the handlers special-case, or any
other exception. -/
inductive WriteOutcome where
  | ok
  | zeroError
  | err
deriving DecidableEq

/-- Observable primitive steps of one batch flush, in program order: a
reassignment of the handler's buffer attribute, a writer append call with the
batch passed to it, or an error log line from an except branch. -/
inductive FlushOp (α : Type) where
  | setBuffer (contents : List α)
  | writerAppend (batch : List α)
  | logError
deriving DecidableEq

/-- Batches handed to the writer during a flush, in order. -/
def writesOf {α : Type} (ops : List (FlushOp α)) : List (List α) :=
  ops.filterMap fun op =>
    match op with
    | .writerAppend b => some b
    | _ => none

/-- The swap-then-write discipline on a flush trace: every writer append is
preceded by a reassignment of the buffer to an empty container. -/
def swapBeforeWrite {α : Type} (ops : List (FlushOp α)) : Prop :=
  ∀ pre b post, ops = pre ++ FlushOp.writerAppend b :: post →
    FlushOp.setBuffer ([] : List α) ∈ pre

/-- Translation of `TradesHandler._flush_batch` (handlers/trades.py lines
51-70), as the trace of operations and the buffer left behind.  The writer is
called on the current buffer; the buffer is reassigned to [] only after a
successful write (or the ClickHouse "0" pseudo-error); on any other error the
batch is kept ("Не очищаем батч при ошибке").  With storage = None the
attribute access raises before any write and the except branch logs it. -/
def tradesFlushOps (storage : Option Unit) (batch : List TradeRecord)
    (res : WriteOutcome) : List (FlushOp TradeRecord) × List TradeRecord :=
  if batch.isEmpty then ([], batch)
  else
    match storage with
    | none => ([FlushOp.logError], batch)
    | some _ =>
      match res with
      | .ok => ([FlushOp.writerAppend batch, FlushOp.setBuffer []], [])
      | .zeroError => ([FlushOp.writerAppend batch, FlushOp.setBuffer []], [])
      | .err => ([FlushOp.writerAppend batch, FlushOp.logError], batch)

/-- Translation of the storage-guarded `_flush_batch` shared (textually
duplicated) by `FundingRateHandler`, `MarkPriceHandler`, `TickersHandler` and
`OpenInterestHandler`: like the trades flush but with an explicit
`if self.storage:` guard whose else branch clears the batch without any
writer call ("No storage available, skipping flush"). -/
def guardedFlushOps {α : Type} (storage : Option Unit) (batch : List α)
    (res : WriteOutcome) : List (FlushOp α) × List α :=
  if batch.isEmpty then ([], batch)
  else
    match storage with
    | none => ([FlushOp.setBuffer []], [])
    | some _ =>
      match res with
      | .ok => ([FlushOp.writerAppend batch, FlushOp.setBuffer []], [])
      | .zeroError => ([FlushOp.writerAppend batch, FlushOp.setBuffer []], [])
      | .err => ([FlushOp.writerAppend batch, FlushOp.logError], batch)

/-- Translation of `OrderBookHandler._flush_snapshots` and `_flush_updates`
(handlers/orderbook.py lines 229-245 and 247-263; the two bodies are identical
up to the buffer and writer method): the batch is taken and the buffer
reassigned to [] first, then, if storage is configured, the writer is called
on the taken slice with errors logged and the batch discarded either way. -/
def swapFlushOps {α : Type} (storage : Option Unit) (batch : List α)
    (res : WriteOutcome) : List (FlushOp α) × List α :=
  if batch.isEmpty then ([], batch)
  else
    match storage with
    | none => ([FlushOp.setBuffer []], [])
    | some _ =>
      match res with
      | .ok => ([FlushOp.setBuffer [], FlushOp.writerAppend batch], [])
      | .zeroError => ([FlushOp.setBuffer [], FlushOp.writerAppend batch], [])
      | .err =>
        ([FlushOp.setBuffer [], FlushOp.writerAppend batch, FlushOp.logError],
          [])

/-- Normalized funding-rate record (handlers/funding_rate.py lines 34-51). -/
structure FundingRecord where
  instId : PyVal
  fundingRate : ℚ
  fundingTime : ℤ
  nextFundingTime : ℤ
  ts_event_ms : ℤ
  ts_ingest_ms : ℤ
deriving DecidableEq

/-- Normalized mark-price record (handlers/mark_price.py lines 34-49). -/
structure MarkPriceRecord where
  instId : PyVal
  markPx : ℚ
  idxPx : ℚ
  idxTs : ℤ
  ts_event_ms : ℤ
  ts_ingest_ms : ℤ
deriving DecidableEq

/-- Normalized ticker record (handlers/tickers.py lines 35-59). -/
structure TickerRecord where
  instId : PyVal
  last : ℚ
  lastSz : ℚ
  bidPx : ℚ
  bidSz : ℚ
  askPx : ℚ
  askSz : ℚ
  open24h : ℚ
  high24h : ℚ
  low24h : ℚ
  vol24h : ℚ
  volCcy24h : ℚ
  ts_event_ms : ℤ
  ts_ingest_ms : ℤ
deriving DecidableEq

/-- Normalized open-interest record (handlers/open_interest.py lines 33-47). -/
structure OpenInterestRecord where
  instId : PyVal
  oi : ℚ
  oiCcy : ℚ
  ts_event_ms : ℤ
  ts_ingest_ms : ℤ
deriving DecidableEq

/-- Normalized book-delta record built by `OrderBookHandler._process_update`
(handlers/orderbook.py lines 150-174). -/
structure UpdateRecord where
  instId : String
  ts_event_ms : ℤ
  ts_ingest_ms : ℤ
  bids_delta : List (ℚ × ℚ)
  asks_delta : List (ℚ × ℚ)
  checksum : ℤ
deriving DecidableEq

/-- Buffers of every handler registered in `flush_all_handlers`
(ws/client.py lines 197-204), plus the shared storage reference; the order-book
handler owns two buffers (snapshot rows and delta records). -/
structure ClientState where
  storage : Option Unit
  tradesBatch : List TradeRecord
  obSnapBatch : List SnapshotRow
  obUpdBatch : List UpdateRecord
  fundingBatch : List FundingRecord
  markBatch : List MarkPriceRecord
  tickersBatch : List TickerRecord
  oiBatch : List OpenInterestRecord
deriving DecidableEq

/-- One writer outcome per writer call that a single flush-all pass can make. -/
structure FlushOutcomes where
  trades : WriteOutcome
  obSnapshots : WriteOutcome
  obUpdates : WriteOutcome
  funding : WriteOutcome
  markPrice : WriteOutcome
  tickers : WriteOutcome
  openInterest : WriteOutcome
deriving DecidableEq

/-- Batches handed to the writer, per record kind, in call order. -/
structure WriterLog where
  trades : List (List TradeRecord)
  obSnapshots : List (List SnapshotRow)
  obUpdates : List (List UpdateRecord)
  funding : List (List FundingRecord)
  markPrice : List (List MarkPriceRecord)
  tickers : List (List TickerRecord)
  openInterest : List (List OpenInterestRecord)
deriving DecidableEq

/-- Fieldwise concatenation of two writer logs. -/
def WriterLog.append (l r : WriterLog) : WriterLog where
  trades := l.trades ++ r.trades
  obSnapshots := l.obSnapshots ++ r.obSnapshots
  obUpdates := l.obUpdates ++ r.obUpdates
  funding := l.funding ++ r.funding
  markPrice := l.markPrice ++ r.markPrice
  tickers := l.tickers ++ r.tickers
  openInterest := l.openInterest ++ r.openInterest

/-- Translation of `OKXWebSocketClient.flush_all_handlers` (ws/client.py lines
191-210): every handler's flush is invoked in the fixed order trades,
orderbook (snapshots then updates, per `OrderBookHandler.flush`), funding,
mark price, tickers, open interest; a failure in one flush is caught and does
not skip the rest. -/
def flush_all_handlers (st : ClientState) (o : FlushOutcomes) :
    ClientState × WriterLog :=
  let t := tradesFlushOps st.storage st.tradesBatch o.trades
  let s := swapFlushOps st.storage st.obSnapBatch o.obSnapshots
  let u := swapFlushOps st.storage st.obUpdBatch o.obUpdates
  let f := guardedFlushOps st.storage st.fundingBatch o.funding
  let m := guardedFlushOps st.storage st.markBatch o.markPrice
  let k := guardedFlushOps st.storage st.tickersBatch o.tickers
  let i := guardedFlushOps st.storage st.oiBatch o.openInterest
  ({ st with
      tradesBatch := t.2
      obSnapBatch := s.2
      obUpdBatch := u.2
      fundingBatch := f.2
      markBatch := m.2
      tickersBatch := k.2
      oiBatch := i.2 },
    { trades := writesOf t.1
      obSnapshots := writesOf s.1
      obUpdates := writesOf u.1
      funding := writesOf f.1
      markPrice := writesOf m.1
      tickers := writesOf k.1
      openInterest := writesOf i.1 })

/-- The shutdown drain: the final flush-all pass that `periodic_flush` runs on
CancelledError (ws/client.py lines 218-225) followed by the defensive
flush-all pass that `main` runs in its finally block (run.py lines 36-41).
Each pass may see its own writer outcomes. -/
def shutdownFlush (st : ClientState) (o1 o2 : FlushOutcomes) :
    ClientState × WriterLog :=
  let p1 := flush_all_handlers st o1
  let p2 := flush_all_handlers p1.1 o2
  (p2.1, p1.2.append p2.2)

/-- Translation of `full_jitter_delay` (ws/client.py lines 21-23):
`exp = min(cap, base * 2 ** attempt); return random.uniform(0, exp)`.
The random draw is modelled by the sample `u` scaled to [0, 1], so the
returned delay is `exp * u`. -/
def full_jitter_delay (base cap : ℚ) (attempt : ℕ) (u : ℚ) : ℚ :=
  min cap (base * 2 ^ attempt) * u

/-- How one `_run_once` invocation ends: the websocket iterator is exhausted
and the coroutine returns, or a transport/protocol exception escapes. -/
inductive SessionEnd where
  | cleanClose
  | wsError
deriving DecidableEq

/-- Effect of one `run_forever` loop iteration on `self._attempt`
(ws/client.py lines 95-117): a clean return of `_run_once` resets the counter
to 0; an exception increments it (before the backoff delay is drawn with that
incremented value). -/
def runForeverStep (attempt : ℕ) (e : SessionEnd) : ℕ :=
  match e with
  | .cleanClose => 0
  | .wsError => attempt + 1

/-- Backoff delay drawn in that same iteration: none on a clean return, and
`full_jitter_delay(base, cap, attempt + 1)` after an exception (the counter is
incremented first, ws/client.py lines 109-112). -/
def backoffDelayDrawn (base cap : ℚ) (attempt : ℕ) (e : SessionEnd) (u : ℚ) :
    Option ℚ :=
  match e with
  | .cleanClose => none
  | .wsError => some (full_jitter_delay base cap (attempt + 1) u)

/-- Value of `self._attempt` observed inside `_run_once` after some number of
frames have been read (ws/client.py lines 119-136): the read loop and
`_on_message` never assign `_attempt`, so it keeps the value it had when the
connection was opened. -/
def attemptDuringSession (attemptAtConnect : ℕ) (framesRead : ℕ) : ℕ :=
  attemptAtConnect

/-- What `run_forever` holds after the storage-initialization block. -/
structure InitResult where
  storage : Option Unit
  proceedsToLoop : Bool
deriving DecidableEq

/-- Translation of the storage-initialization block of `run_forever`
(ws/client.py lines 58-94): on success the storage is wired into every
handler; on failure the exception is caught, a warning "Working without
storage" is logged, storage is set to None, and execution falls through to
`start_periodic_snapshots` and the read loop either way.  Neither this block
nor `main` (run.py) exits the process on this failure. -/
def runForeverInit (initOk : Bool) : InitResult :=
  if initOk then { storage := some (), proceedsToLoop := true }
  else { storage := none, proceedsToLoop := true }

/-- Control frame that the session manager could send on the live
connection. -/
inductive OutboundFrame where
  | unsubscribeFrame (channel instId : String)
  | subscribeFrame (channel instId : String)
deriving DecidableEq

/-- Translation of `OKXWebSocketClient._resubscribe_orderbook` (ws/client.py
lines 182-189), the callback invoked by `OrderBookHandler.on_increment` on a
sequence break: its body logs a warning and returns; no unsubscribe or
subscribe frame is sent (the source marks the send logic as TODO). -/
def resubscribeOrderbook (instId : String) : List OutboundFrame := []

/-- Concrete book used by witnesses: valid, two bids, two asks, seq_id 5. -/
def sampleBook : OrderBookL2 :=
  { inst_id := "BTC-USDT-SWAP"
    max_depth := 50
    bids := [(100, 1), (99, 2)]
    asks := [(101, 1), (102, 2)]
    last_ts_event_ms := 1000
    last_checksum := 0
    seq_id := some 5
    prev_seq_id := some 4
    valid := true }

/-- Concrete delta frame whose prevSeqId (7) differs from sampleBook's
seq_id (5). -/
def sampleUpdateMismatch : UpdateFrame :=
  { seqId := some 9
    prevSeqId := some 7
    checksum := 3
    ts := 1001
    bids := [some (98, 3), some (100, 0)]
    asks := [none, some (101, 5)] }

/-- Concrete trade record used by witnesses and counterexamples. -/
def sampleTrade : TradeRecord :=
  { instId := .vstr "BTC-USDT"
    ts_event_ms := 1
    tradeId := .vstr "t1"
    px := 100
    sz := 1
    side := .vstr "buy"
    ts_ingest_ms := 2 }

/-- Concrete snapshot row used by witnesses. -/
def sampleRow : SnapshotRow :=
  { snapshot_id := "u1", instId := "BTC-USDT-SWAP", ts_event_ms := 1000
    side := 1, price := 100, size := 1, level := 1 }

/-- Concrete delta record used by witnesses. -/
def sampleUpd : UpdateRecord :=
  { instId := "BTC-USDT-SWAP", ts_event_ms := 1001, ts_ingest_ms := 1002
    bids_delta := [(98, 3)], asks_delta := [], checksum := 3 }

/-- Concrete funding-rate record used by witnesses. -/
def sampleFunding : FundingRecord :=
  { instId := .vstr "BTC-USDT-SWAP", fundingRate := 1 / 1000
    fundingTime := 10, nextFundingTime := 20, ts_event_ms := 5, ts_ingest_ms := 6 }

/-- Concrete mark-price record used by witnesses. -/
def sampleMark : MarkPriceRecord :=
  { instId := .vstr "BTC-USDT-SWAP", markPx := 100, idxPx := 99
    idxTs := 4, ts_event_ms := 5, ts_ingest_ms := 6 }

/-- Concrete ticker record used by witnesses. -/
def sampleTicker : TickerRecord :=
  { instId := .vstr "BTC-USDT", last := 100, lastSz := 1, bidPx := 99
    bidSz := 2, askPx := 101, askSz := 3, open24h := 95, high24h := 105
    low24h := 90, vol24h := 1000, volCcy24h := 100000
    ts_event_ms := 5, ts_ingest_ms := 6 }

/-- Concrete open-interest record used by witnesses. -/
def sampleOI : OpenInterestRecord :=
  { instId := .vstr "BTC-USDT-SWAP", oi := 500, oiCcy := 5
    ts_event_ms := 5, ts_ingest_ms := 6 }

/-- Concrete raw trade whose px is present but not float()-parsable. -/
def tradeBadPx : RawTrade :=
  { instId := some (.vstr "BTC-USDT")
    ts := some (.vstr "1000")
    tradeId := some (.vstr "t1")
    px := some (.vstr "abc")
    sz := some (.vstr "1")
    side := some (.vstr "buy") }

/-- Concrete raw trade with every field absent. -/
def tradeAllAbsent : RawTrade :=
  { instId := none, ts := none, tradeId := none, px := none, sz := none
    side := none }

lemma rowsFrom_length (sid inst : String) (ts : ℤ) (tag : ℕ) :
    ∀ (n : ℕ) (l : List (ℚ × ℚ)), (rowsFrom sid inst ts tag n l).length = l.length := by
  intro n l
  induction l generalizing n with
  | nil => rfl
  | cons x rest ih => simp [rowsFrom, ih]

lemma rowsFrom_mem (sid inst : String) (ts : ℤ) (tag : ℕ) :
    ∀ (n : ℕ) (l : List (ℚ × ℚ)) (r : SnapshotRow),
      r ∈ rowsFrom sid inst ts tag n l →
      r.snapshot_id = sid ∧ r.instId = inst ∧ r.ts_event_ms = ts ∧
      r.side = tag ∧ n + 1 ≤ r.level ∧ r.level ≤ n + l.length ∧
      ∃ pl ∈ l, r.price = pl.1 ∧ r.size = pl.2 := by
  intro n l
  induction l generalizing n with
  | nil => intro r hr; simp [rowsFrom] at hr
  | cons x rest ih =>
    intro r hr
    simp only [rowsFrom, List.mem_cons] at hr
    rcases hr with h | h
    · subst h
      refine ⟨rfl, rfl, rfl, rfl, le_refl _, ?_, ⟨x, List.mem_cons_self x rest, rfl, rfl⟩⟩
      simp
    · obtain ⟨h1, h2, h3, h4, h5, h6, pl, hpl, h7, h8⟩ := ih (n + 1) r h
      refine ⟨h1, h2, h3, h4, by omega, ?_, ⟨pl, List.mem_cons_of_mem x hpl, h7, h8⟩⟩
      simp only [List.length_cons]
      omega

lemma rowsFrom_pairwise (R : ℚ → ℚ → Prop) (sid inst : String) (ts : ℤ) (tag : ℕ) :
    ∀ (n : ℕ) (l : List (ℚ × ℚ)), l.Pairwise (fun x y => R x.1 y.1) →
      (rowsFrom sid inst ts tag n l).Pairwise (fun a c => R a.price c.price) := by
  intro n l
  induction l generalizing n with
  | nil => intro _; simp [rowsFrom]
  | cons x rest ih =>
    intro h
    rw [List.pairwise_cons] at h
    simp only [rowsFrom]
    refine List.Pairwise.cons ?_ (ih (n + 1) h.2)
    intro r' hr'
    obtain ⟨_, _, _, _, _, _, pl, hpl, hpr, _⟩ := rowsFrom_mem sid inst ts tag (n + 1) rest r' hr'
    rw [hpr]
    exact h.1 pl hpl

lemma swapBeforeWrite_of_no_write {α : Type} (ops : List (FlushOp α))
    (h : ∀ b, FlushOp.writerAppend b ∉ ops) : swapBeforeWrite ops := by
  intro pre b post he
  have hmem : FlushOp.writerAppend b ∈ ops := by
    rw [he]
    exact List.mem_append_right pre (List.mem_cons_self _ _)
  exact absurd hmem (h b)

lemma swapBeforeWrite_setFirst {α : Type} (tail : List (FlushOp α)) :
    swapBeforeWrite (FlushOp.setBuffer ([] : List α) :: tail) := by
  intro pre b post he
  cases pre with
  | nil =>
    injection he with h1 _
    exact FlushOp.noConfusion h1
  | cons a pre' =>
    injection he with h1 _
    rw [← h1]
    exact List.mem_cons_self _ _

lemma swapFlush_none {α : Type} (batch : List α) (res : WriteOutcome) :
    (swapFlushOps none batch res).2 = [] ∧
    writesOf (swapFlushOps none batch res).1 = [] ∧
    FlushOp.logError ∉ (swapFlushOps none batch res).1 := by
  by_cases h : batch.isEmpty
  · simp [swapFlushOps, h, List.isEmpty_iff.mp h, writesOf]
  · simp [swapFlushOps, h, writesOf]

lemma guardedFlush_none {α : Type} (batch : List α) (res : WriteOutcome) :
    (guardedFlushOps none batch res).2 = [] ∧
    writesOf (guardedFlushOps none batch res).1 = [] ∧
    FlushOp.logError ∉ (guardedFlushOps none batch res).1 := by
  by_cases h : batch.isEmpty
  · simp [guardedFlushOps, h, List.isEmpty_iff.mp h, writesOf]
  · simp [guardedFlushOps, h, writesOf]

lemma tradesFlush_hands_batch (batch : List TradeRecord) (res : WriteOutcome)
    (hb : batch ≠ []) :
    batch ∈ writesOf (tradesFlushOps (some ()) batch res).1 := by
  cases batch with
  | nil => exact absurd rfl hb
  | cons a t => cases res <;> simp [tradesFlushOps, writesOf]

lemma swapFlush_hands_batch {α : Type} (batch : List α) (res : WriteOutcome)
    (hb : batch ≠ []) :
    batch ∈ writesOf (swapFlushOps (some ()) batch res).1 := by
  cases batch with
  | nil => exact absurd rfl hb
  | cons a t => cases res <;> simp [swapFlushOps, writesOf]

lemma guardedFlush_hands_batch {α : Type} (batch : List α) (res : WriteOutcome)
    (hb : batch ≠ []) :
    batch ∈ writesOf (guardedFlushOps (some ()) batch res).1 := by
  cases batch with
  | nil => exact absurd rfl hb
  | cons a t => cases res <;> simp [guardedFlushOps, writesOf]

/-- Claim C1: for every order book and every delta frame in which both the
frame's prev_seq_id and the book's current seq_id are known and differ,
apply_updates returns ok = true with checksum_ok = false, and the frame's
level mutations (upsert for size > 0, erase for size ≤ 0, encoded in
applyLevelUpdate) are nevertheless applied to the book's bids and asks: the
resulting sides are the fold of applyLevelUpdate over the frame, identical to
what a sequence-continuous call would produce. -/
theorem apply_updates_seq_mismatch (b : OrderBookL2) (u : UpdateFrame)
    (s p : ℤ) (hs : b.seq_id = some s) (hp : u.prevSeqId = some p)
    (hne : p ≠ s) :
    (apply_updates b u).2.1 = true ∧
    (apply_updates b u).2.2 = false ∧
    (apply_updates b u).1.bids =
      sortBidsDesc (u.bids.foldl applyLevelUpdate b.bids) ∧
    (apply_updates b u).1.asks =
      sortAsksAsc (u.asks.foldl applyLevelUpdate b.asks) ∧
    (apply_updates b u).1.bids =
      (apply_updates { b with seq_id := some p } u).1.bids ∧
    (apply_updates b u).1.asks =
      (apply_updates { b with seq_id := some p } u).1.asks := by
  refine ⟨rfl, ?_, rfl, rfl, rfl, rfl⟩
  simp [apply_updates, hs, hp, hne]

/-- Witness for C1 at a concrete book (seq_id 5) and frame (prevSeqId 7). -/
theorem apply_updates_seq_mismatch_witness :
    sampleBook.seq_id = some 5 ∧ sampleUpdateMismatch.prevSeqId = some 7 ∧
    (7 : ℤ) ≠ 5 ∧
    ((apply_updates sampleBook sampleUpdateMismatch).2.1 = true ∧
     (apply_updates sampleBook sampleUpdateMismatch).2.2 = false ∧
     (apply_updates sampleBook sampleUpdateMismatch).1.bids =
       sortBidsDesc
         (sampleUpdateMismatch.bids.foldl applyLevelUpdate sampleBook.bids) ∧
     (apply_updates sampleBook sampleUpdateMismatch).1.asks =
       sortAsksAsc
         (sampleUpdateMismatch.asks.foldl applyLevelUpdate sampleBook.asks) ∧
     (apply_updates sampleBook sampleUpdateMismatch).1.bids =
       (apply_updates { sampleBook with seq_id := some 7 }
         sampleUpdateMismatch).1.bids ∧
     (apply_updates sampleBook sampleUpdateMismatch).1.asks =
       (apply_updates { sampleBook with seq_id := some 7 }
         sampleUpdateMismatch).1.asks) :=
  ⟨rfl, rfl, by decide,
    apply_updates_seq_mismatch sampleBook sampleUpdateMismatch 5 7 rfl rfl
      (by decide)⟩

/-- Claim C4: to_snapshot_rows returns [] when the book is not valid;
otherwise, for positive K, it returns at most 2K rows, every row carries the
caller's snapshot id and ts_event and a level in [1, K], and the rows split as
bid rows (side 1, price-descending when the stored bids are) followed by ask
rows (side 2, price-ascending when the stored asks are). -/
theorem to_snapshot_rows_shape (b : OrderBookL2) (sid : String) (ts : ℤ)
    (K : ℕ) (hK : 0 < K) :
    (b.valid = false → to_snapshot_rows b sid ts (some K) = []) ∧
    (b.valid = true →
      (to_snapshot_rows b sid ts (some K)).length ≤ 2 * K ∧
      (∀ r ∈ to_snapshot_rows b sid ts (some K),
        r.snapshot_id = sid ∧ r.ts_event_ms = ts ∧
        1 ≤ r.level ∧ r.level ≤ K) ∧
      ∃ bs as, to_snapshot_rows b sid ts (some K) = bs ++ as ∧
        (∀ r ∈ bs, r.side = 1) ∧ (∀ r ∈ as, r.side = 2) ∧
        (b.bids.Pairwise (fun x y => y.1 < x.1) →
          bs.Pairwise (fun a c => c.price < a.price)) ∧
        (b.asks.Pairwise (fun x y => x.1 < y.1) →
          as.Pairwise (fun a c => a.price < c.price))) := by
  have hKne : K ≠ 0 := Nat.pos_iff_ne_zero.mp hK
  constructor
  · intro hv
    simp [to_snapshot_rows, hv]
  · intro hv
    have hrows : to_snapshot_rows b sid ts (some K) =
        rowsFrom sid b.inst_id ts 1 0 (b.bids.take K)
          ++ rowsFrom sid b.inst_id ts 2 0 (b.asks.take K) := by
      simp [to_snapshot_rows, hv, hKne]
    refine ⟨?_, ?_, rowsFrom sid b.inst_id ts 1 0 (b.bids.take K),
      rowsFrom sid b.inst_id ts 2 0 (b.asks.take K), hrows, ?_, ?_, ?_, ?_⟩
    · rw [hrows, List.length_append, rowsFrom_length, rowsFrom_length]
      have h1 : (b.bids.take K).length ≤ K := by
        rw [List.length_take]; exact min_le_left _ _
      have h2 : (b.asks.take K).length ≤ K := by
        rw [List.length_take]; exact min_le_left _ _
      omega
    · intro r hr
      rw [hrows] at hr
      rcases List.mem_append.mp hr with h | h
      · obtain ⟨h1, _, h3, _, h5, h6, _⟩ :=
          rowsFrom_mem sid b.inst_id ts 1 0 (b.bids.take K) r h
        have hlen : (b.bids.take K).length ≤ K := by
          rw [List.length_take]; exact min_le_left _ _
        exact ⟨h1, h3, by omega, by omega⟩
      · obtain ⟨h1, _, h3, _, h5, h6, _⟩ :=
          rowsFrom_mem sid b.inst_id ts 2 0 (b.asks.take K) r h
        have hlen : (b.asks.take K).length ≤ K := by
          rw [List.length_take]; exact min_le_left _ _
        exact ⟨h1, h3, by omega, by omega⟩
    · intro r hr
      exact (rowsFrom_mem sid b.inst_id ts 1 0 (b.bids.take K) r hr).2.2.2.1
    · intro r hr
      exact (rowsFrom_mem sid b.inst_id ts 2 0 (b.asks.take K) r hr).2.2.2.1
    · intro hb
      exact rowsFrom_pairwise (fun a c => c < a) sid b.inst_id ts 1 0
        (b.bids.take K) (hb.sublist (List.take_sublist K b.bids))
    · intro ha
      exact rowsFrom_pairwise (fun a c => a < c) sid b.inst_id ts 2 0
        (b.asks.take K) (ha.sublist (List.take_sublist K b.asks))

/-- Witness for C4 at the concrete sampleBook with K = 1. -/
theorem to_snapshot_rows_shape_witness :
    0 < 1 ∧
    ((sampleBook.valid = false →
        to_snapshot_rows sampleBook "s0" 7 (some 1) = []) ∧
     (sampleBook.valid = true →
        (to_snapshot_rows sampleBook "s0" 7 (some 1)).length ≤ 2 * 1 ∧
        (∀ r ∈ to_snapshot_rows sampleBook "s0" 7 (some 1),
          r.snapshot_id = "s0" ∧ r.ts_event_ms = 7 ∧
          1 ≤ r.level ∧ r.level ≤ 1) ∧
        ∃ bs as, to_snapshot_rows sampleBook "s0" 7 (some 1) = bs ++ as ∧
          (∀ r ∈ bs, r.side = 1) ∧ (∀ r ∈ as, r.side = 2) ∧
          (sampleBook.bids.Pairwise (fun x y => y.1 < x.1) →
            bs.Pairwise (fun a c => c.price < a.price)) ∧
          (sampleBook.asks.Pairwise (fun x y => x.1 < y.1) →
            as.Pairwise (fun a c => a.price < c.price)))) :=
  ⟨Nat.one_pos, to_snapshot_rows_shape sampleBook "s0" 7 1 Nat.one_pos⟩

/-- Claim C2 counterexample: a size- or timer-triggered flush of the trades
batcher with a configured writer and a successful write performs the writer
append FIRST and reassigns the buffer only afterwards, so the slice handed to
the writer IS the batcher's current buffer — the swap-then-write discipline
does not hold for this batcher. -/
theorem swap_then_write_counterexample :
    ¬ swapBeforeWrite
        (tradesFlushOps (some ()) [sampleTrade] WriteOutcome.ok).1 := by
  intro h
  have hmem := h [] [sampleTrade] [FlushOp.setBuffer []] rfl
  simp at hmem

/-- Claim C2 amended: the swap-then-write discipline (buffer reassigned to an
empty container before the writer call) holds for the order-book snapshot and
update batchers, whose flushes take the batch and reassign the buffer first;
the trades batcher instead hands its current buffer to the writer as the very
first operation of its flush and reassigns only after a successful write. -/
theorem swap_then_write_scope {α : Type} (storage : Option Unit)
    (batch : List α) (res : WriteOutcome) (r : TradeRecord)
    (rest : List TradeRecord) (res2 : WriteOutcome) :
    swapBeforeWrite (swapFlushOps storage batch res).1 ∧
    (tradesFlushOps (some ()) (r :: rest) res2).1.head? =
      some (FlushOp.writerAppend (r :: rest)) := by
  constructor
  · by_cases hb : batch.isEmpty
    · refine swapBeforeWrite_of_no_write _ ?_
      simp [swapFlushOps, hb]
    · cases storage with
      | none =>
        simp only [swapFlushOps, hb, Bool.false_eq_true, if_false]
        exact swapBeforeWrite_setFirst []
      | some u =>
        cases res <;>
          · simp only [swapFlushOps, hb, Bool.false_eq_true, if_false]
            exact swapBeforeWrite_setFirst _
  · cases res2 <;> rfl

/-- Claim C3 counterexample: after a trades-batcher flush whose writer call
fails (a genuine error, not the ClickHouse "0" pseudo-error), the buffer still
holds the batch — it is kept for the next flush, not discarded. -/
theorem flush_empties_buffer_counterexample :
    (tradesFlushOps (some ()) [sampleTrade] WriteOutcome.err).2 =
      [sampleTrade] ∧
    [sampleTrade] ≠ ([] : List TradeRecord) := by
  exact ⟨rfl, by simp⟩

/-- Claim C3 amended: the order-book snapshot/update batchers leave an empty
buffer after every flush regardless of the writer outcome (a failed batch is
logged and discarded).  The trades batcher (and the storage-guarded simple
batchers) empty the buffer on success, on the ClickHouse "0" pseudo-error, and
— for the guarded ones — when no storage is configured; on a genuine writer
error they keep the batch, which is retried at the next flush. -/
theorem flush_buffer_after_flush {α : Type} (storage : Option Unit)
    (batch : List α) (res : WriteOutcome) (tb : List TradeRecord) :
    (swapFlushOps storage batch res).2 = [] ∧
    (tradesFlushOps (some ()) tb WriteOutcome.ok).2 = [] ∧
    (tradesFlushOps (some ()) tb WriteOutcome.zeroError).2 = [] ∧
    (tradesFlushOps (some ()) tb WriteOutcome.err).2 = tb ∧
    (guardedFlushOps none batch res).2 = [] ∧
    (guardedFlushOps (some ()) batch WriteOutcome.err).2 = batch := by
  refine ⟨?_, ?_, ?_, ?_, ?_, ?_⟩
  · by_cases hb : batch.isEmpty
    · simp [swapFlushOps, hb, List.isEmpty_iff.mp hb]
    · cases storage with
      | none => simp [swapFlushOps, hb]
      | some u => cases res <;> simp [swapFlushOps, hb]
  · by_cases ht : tb.isEmpty
    · simp [tradesFlushOps, ht, List.isEmpty_iff.mp ht]
    · simp [tradesFlushOps, ht]
  · by_cases ht : tb.isEmpty
    · simp [tradesFlushOps, ht, List.isEmpty_iff.mp ht]
    · simp [tradesFlushOps, ht]
  · by_cases ht : tb.isEmpty
    · simp [tradesFlushOps, ht]
    · simp [tradesFlushOps, ht]
  · exact (guardedFlush_none batch res).1
  · by_cases hb : batch.isEmpty
    · simp [guardedFlushOps, hb]
    · simp [guardedFlushOps, hb]

/-- Claim C10: with no writer configured (storage = None), a flush of the
order-book snapshot batcher, of the order-book update batcher and of the
funding-rate batcher leaves an empty buffer, makes no writer call and logs no
error: the buffered records are discarded silently. -/
theorem no_storage_flush_discards (snap : List SnapshotRow)
    (upd : List UpdateRecord) (fund : List FundingRecord)
    (r1 r2 r3 : WriteOutcome) :
    ((swapFlushOps none snap r1).2 = [] ∧
      writesOf (swapFlushOps none snap r1).1 = [] ∧
      FlushOp.logError ∉ (swapFlushOps none snap r1).1) ∧
    ((swapFlushOps none upd r2).2 = [] ∧
      writesOf (swapFlushOps none upd r2).1 = [] ∧
      FlushOp.logError ∉ (swapFlushOps none upd r2).1) ∧
    ((guardedFlushOps none fund r3).2 = [] ∧
      writesOf (guardedFlushOps none fund r3).1 = [] ∧
      FlushOp.logError ∉ (guardedFlushOps none fund r3).1) :=
  ⟨swapFlush_none snap r1, swapFlush_none upd r2, guardedFlush_none fund r3⟩

/-- Concrete client state with a configured writer and one record buffered in
each batcher, used by the shutdown witness. -/
def sampleClientState : ClientState :=
  { storage := some ()
    tradesBatch := [sampleTrade]
    obSnapBatch := [sampleRow]
    obUpdBatch := [sampleUpd]
    fundingBatch := [sampleFunding]
    markBatch := [sampleMark]
    tickersBatch := [sampleTicker]
    oiBatch := [sampleOI] }

/-- All writer calls succeed. -/
def allOk : FlushOutcomes :=
  { trades := .ok, obSnapshots := .ok, obUpdates := .ok, funding := .ok
    markPrice := .ok, tickers := .ok, openInterest := .ok }

/-- Claim C5: the cancelled flush scheduler performs one final flush pass
across every batcher and the supervisor then runs one additional defensive
flush-all pass (shutdownFlush is exactly those two passes); consequently,
with a configured writer, every record buffered in any batcher before
cancellation is handed to the writer during shutdown, whatever the writer
outcomes of the two passes. -/
theorem shutdown_flush_drains (st : ClientState) (o1 o2 : FlushOutcomes)
    (hst : st.storage = some ()) :
    (∀ r ∈ st.tradesBatch,
      ∃ b ∈ (shutdownFlush st o1 o2).2.trades, r ∈ b) ∧
    (∀ r ∈ st.obSnapBatch,
      ∃ b ∈ (shutdownFlush st o1 o2).2.obSnapshots, r ∈ b) ∧
    (∀ r ∈ st.obUpdBatch,
      ∃ b ∈ (shutdownFlush st o1 o2).2.obUpdates, r ∈ b) ∧
    (∀ r ∈ st.fundingBatch,
      ∃ b ∈ (shutdownFlush st o1 o2).2.funding, r ∈ b) ∧
    (∀ r ∈ st.markBatch,
      ∃ b ∈ (shutdownFlush st o1 o2).2.markPrice, r ∈ b) ∧
    (∀ r ∈ st.tickersBatch,
      ∃ b ∈ (shutdownFlush st o1 o2).2.tickers, r ∈ b) ∧
    (∀ r ∈ st.oiBatch,
      ∃ b ∈ (shutdownFlush st o1 o2).2.openInterest, r ∈ b) := by
  refine ⟨?_, ?_, ?_, ?_, ?_, ?_, ?_⟩
  · intro r hr
    refine ⟨st.tradesBatch, ?_, hr⟩
    simp only [shutdownFlush, flush_all_handlers, WriterLog.append, hst]
    exact List.mem_append_left _
      (tradesFlush_hands_batch _ _ (List.ne_nil_of_mem hr))
  · intro r hr
    refine ⟨st.obSnapBatch, ?_, hr⟩
    simp only [shutdownFlush, flush_all_handlers, WriterLog.append, hst]
    exact List.mem_append_left _
      (swapFlush_hands_batch _ _ (List.ne_nil_of_mem hr))
  · intro r hr
    refine ⟨st.obUpdBatch, ?_, hr⟩
    simp only [shutdownFlush, flush_all_handlers, WriterLog.append, hst]
    exact List.mem_append_left _
      (swapFlush_hands_batch _ _ (List.ne_nil_of_mem hr))
  · intro r hr
    refine ⟨st.fundingBatch, ?_, hr⟩
    simp only [shutdownFlush, flush_all_handlers, WriterLog.append, hst]
    exact List.mem_append_left _
      (guardedFlush_hands_batch _ _ (List.ne_nil_of_mem hr))
  · intro r hr
    refine ⟨st.markBatch, ?_, hr⟩
    simp only [shutdownFlush, flush_all_handlers, WriterLog.append, hst]
    exact List.mem_append_left _
      (guardedFlush_hands_batch _ _ (List.ne_nil_of_mem hr))
  · intro r hr
    refine ⟨st.tickersBatch, ?_, hr⟩
    simp only [shutdownFlush, flush_all_handlers, WriterLog.append, hst]
    exact List.mem_append_left _
      (guardedFlush_hands_batch _ _ (List.ne_nil_of_mem hr))
  · intro r hr
    refine ⟨st.oiBatch, ?_, hr⟩
    simp only [shutdownFlush, flush_all_handlers, WriterLog.append, hst]
    exact List.mem_append_left _
      (guardedFlush_hands_batch _ _ (List.ne_nil_of_mem hr))

/-- Witness for C5 at a concrete state with one record in every batcher. -/
theorem shutdown_flush_drains_witness :
    sampleClientState.storage = some () ∧
    ((∀ r ∈ sampleClientState.tradesBatch,
        ∃ b ∈ (shutdownFlush sampleClientState allOk allOk).2.trades, r ∈ b) ∧
     (∀ r ∈ sampleClientState.obSnapBatch,
        ∃ b ∈ (shutdownFlush sampleClientState allOk allOk).2.obSnapshots,
          r ∈ b) ∧
     (∀ r ∈ sampleClientState.obUpdBatch,
        ∃ b ∈ (shutdownFlush sampleClientState allOk allOk).2.obUpdates,
          r ∈ b) ∧
     (∀ r ∈ sampleClientState.fundingBatch,
        ∃ b ∈ (shutdownFlush sampleClientState allOk allOk).2.funding, r ∈ b) ∧
     (∀ r ∈ sampleClientState.markBatch,
        ∃ b ∈ (shutdownFlush sampleClientState allOk allOk).2.markPrice,
          r ∈ b) ∧
     (∀ r ∈ sampleClientState.tickersBatch,
        ∃ b ∈ (shutdownFlush sampleClientState allOk allOk).2.tickers, r ∈ b) ∧
     (∀ r ∈ sampleClientState.oiBatch,
        ∃ b ∈ (shutdownFlush sampleClientState allOk allOk).2.openInterest,
          r ∈ b)) :=
  ⟨rfl, shutdown_flush_drains sampleClientState allOk allOk rfl⟩

/-- Claim C6 counterexample: a trade frame whose px field is present but not
parsable ("abc") is not emitted with px = 0 — `_process_trade` returns None
and the record is dropped from the batch. -/
theorem parse_tolerance_counterexample :
    processTrade 1700000000000 tradeBadPx = none ∧
    onTradeBatch 1700000000000 [] [tradeBadPx] = [] :=
  ⟨rfl, rfl⟩

/-- Claim C6 amended: an ABSENT numeric field (px here) defaults to 0 — and
string fields to the empty string — and the record is still emitted into the
batcher; an UNPARSABLE numeric field instead raises inside `_process_trade`,
which returns None, and the record is dropped. -/
theorem parse_tolerance_absent_fields (now : ℤ) (t : RawTrade)
    (batch : List TradeRecord) (hpx : t.px = none)
    (hts : ∃ v, pyInt (t.ts.getD (PyVal.vnum 0)) = some v)
    (hsz : ∃ v, pyFloat (t.sz.getD (PyVal.vnum 0)) = some v) :
    ∃ rec, processTrade now t = some rec ∧ rec.px = 0 ∧
      onTradeBatch now batch [t] = batch ++ [rec] := by
  obtain ⟨tv, htv⟩ := hts
  obtain ⟨sv, hsv⟩ := hsz
  have hpxv : pyFloat (t.px.getD (PyVal.vnum 0)) = some 0 := by
    rw [hpx]; rfl
  have hproc : processTrade now t = some
      { instId := t.instId.getD (PyVal.vstr "")
        ts_event_ms := tv
        tradeId := t.tradeId.getD (PyVal.vstr "")
        px := 0
        sz := sv
        side := t.side.getD (PyVal.vstr "")
        ts_ingest_ms := now } := by
    simp [processTrade, htv, hpxv, hsv]
  exact ⟨_, hproc, rfl, by simp [onTradeBatch, hproc]⟩

/-- Witness for the amended C6 at a trade with every field absent. -/
theorem parse_tolerance_absent_fields_witness :
    tradeAllAbsent.px = none ∧
    (∃ v, pyInt (tradeAllAbsent.ts.getD (PyVal.vnum 0)) = some v) ∧
    (∃ v, pyFloat (tradeAllAbsent.sz.getD (PyVal.vnum 0)) = some v) ∧
    ∃ rec, processTrade 5 tradeAllAbsent = some rec ∧ rec.px = 0 ∧
      onTradeBatch 5 [] [tradeAllAbsent] = [] ++ [rec] :=
  ⟨rfl, ⟨0, rfl⟩, ⟨0, rfl⟩,
    parse_tolerance_absent_fields 5 tradeAllAbsent [] rfl ⟨0, rfl⟩ ⟨0, rfl⟩⟩

/-- Claim C7 counterexample: the attempt counter is NOT reset by a successful
frame read — after the first data frame arrives on a connection opened with
attempt = 3, the counter is still 3, not 0 (the read loop in `_run_once`
never assigns `_attempt`). -/
theorem backoff_attempt_counterexample :
    attemptDuringSession 3 1 = 3 ∧ attemptDuringSession 3 1 ≠ 0 :=
  ⟨rfl, by decide⟩

/-- Claim C7 amended: the backoff delay is drawn as
uniform(0, min(cap, base·2^attempt)) — with the counter incremented before the
draw, so a connection failure at counter a draws with a + 1 — and the counter
is reset to 0 only when `_run_once` returns cleanly (connection closed without
an exception), never on a frame read: during a session it keeps the value it
had at connect time. -/
theorem backoff_delay_and_reset (base cap : ℚ) (a k : ℕ) (u : ℚ)
    (hu0 : 0 ≤ u) (hu1 : u ≤ 1) (hb : 0 ≤ base) (hc : 0 ≤ cap) :
    0 ≤ full_jitter_delay base cap a u ∧
    full_jitter_delay base cap a u ≤ min cap (base * 2 ^ a) ∧
    runForeverStep a SessionEnd.cleanClose = 0 ∧
    runForeverStep a SessionEnd.wsError = a + 1 ∧
    backoffDelayDrawn base cap a SessionEnd.wsError u =
      some (full_jitter_delay base cap (a + 1) u) ∧
    attemptDuringSession a k = a := by
  have hexp : 0 ≤ min cap (base * 2 ^ a) :=
    le_min hc (mul_nonneg hb (by positivity))
  refine ⟨mul_nonneg hexp hu0, ?_, rfl, rfl, rfl, rfl⟩
  calc min cap (base * 2 ^ a) * u
      ≤ min cap (base * 2 ^ a) * 1 := by
        exact mul_le_mul_of_nonneg_left hu1 hexp
    _ = min cap (base * 2 ^ a) := mul_one _

/-- Witness for the amended C7 at base = 1/2, cap = 30, attempt 2,
sample 1/2. -/
theorem backoff_delay_and_reset_witness :
    (0 : ℚ) ≤ 1 / 2 ∧ (1 / 2 : ℚ) ≤ 1 ∧ (0 : ℚ) ≤ 1 / 2 ∧ (0 : ℚ) ≤ 30 ∧
    (0 ≤ full_jitter_delay (1 / 2) 30 2 (1 / 2) ∧
     full_jitter_delay (1 / 2) 30 2 (1 / 2) ≤
       min (30 : ℚ) (1 / 2 * 2 ^ 2) ∧
     runForeverStep 2 SessionEnd.cleanClose = 0 ∧
     runForeverStep 2 SessionEnd.wsError = 2 + 1 ∧
     backoffDelayDrawn (1 / 2) 30 2 SessionEnd.wsError (1 / 2) =
       some (full_jitter_delay (1 / 2) 30 (2 + 1) (1 / 2)) ∧
     attemptDuringSession 2 1 = 2) :=
  ⟨by norm_num, by norm_num, by norm_num, by norm_num,
    backoff_delay_and_reset (1 / 2) 30 2 1 (1 / 2) (by norm_num) (by norm_num)
      (by norm_num) (by norm_num)⟩

/-- Claim C8 counterexample: when storage initialization fails, the client
does not abort — `run_forever` catches the exception, sets storage to None
and proceeds into the subscription/read loop; no non-zero exit occurs. -/
theorem storage_init_failure_counterexample :
    (runForeverInit false).proceedsToLoop = true ∧
    (runForeverInit false).storage = none :=
  ⟨rfl, rfl⟩

/-- Claim C8 amended: on writer/storage initialization failure the supervisor
does NOT abort: a warning is logged, the client continues running the
ingestion pipeline with storage = None, and batches flushed from the guarded
batchers are then discarded silently (no writer call is made). -/
theorem storage_init_failure_continues (fund : List FundingRecord)
    (res : WriteOutcome) :
    (runForeverInit false).storage = none ∧
    (runForeverInit false).proceedsToLoop = true ∧
    (guardedFlushOps (runForeverInit false).storage fund res).2 = [] ∧
    writesOf (guardedFlushOps (runForeverInit false).storage fund res).1 =
      [] := by
  refine ⟨rfl, rfl, ?_, ?_⟩
  · exact (guardedFlush_none fund res).1
  · exact (guardedFlush_none fund res).2.1

/-- Claim C9: the per-instrument resubscribe callback is an unimplemented
stub (TODO in ws/client.py lines 182-189): invoked for an instrument, it
sends no frame at all — in particular no unsubscribe and no subscribe frame —
whatever the connection state. -/
theorem resubscribe_stub_sends_nothing :
    resubscribeOrderbook "BTC-USDT-SWAP" = [] ∧
    ∀ ch inst,
      OutboundFrame.unsubscribeFrame ch inst ∉
        resubscribeOrderbook "BTC-USDT-SWAP" ∧
      OutboundFrame.subscribeFrame ch inst ∉
        resubscribeOrderbook "BTC-USDT-SWAP" := by
  refine ⟨rfl, ?_⟩
  intro ch inst
  exact ⟨by simp [resubscribeOrderbook], by simp [resubscribeOrderbook]⟩

end OkxHft
